import Mathlib

/-!
Verification of the mini_n8n workflow-orchestration engine
(backend/app: nodes/base.py, nodes/delay_node.py, nodes/condition_node.py,
nodes/registry.py, orchestrator/state.py, orchestrator/executor.py,
orchestrator/engine.py, schemas/node.py, config.py).

Modelling conventions:
* Python values (the JSON-like data flowing through nodes) are the inductive
  `PyValue`.  Python ints and floats are both modelled as exact rationals
  (`Rat`); the int/float distinction (overflow, IEEE rounding, repr) is not
  exercised by any verified claim.
* Wall-clock time is modelled by an explicit rational clock: `asyncio.sleep s`
  advances it by exactly `s`, `asyncio.wait_for` fires its timeout iff the
  awaited computation's modelled duration strictly exceeds the timeout, and
  every other operation takes zero time.  `datetime.utcnow()` reads that clock.
* Exceptions are `Except String`; the carried string is Python's `str(e)`.
  Messages raised by the repository's own `raise` statements are reproduced
  verbatim; messages produced inside CPython or pydantic are approximated
  (no verified claim inspects those).
* Dict equality is compared pointwise in key order.  Python dicts compare
  order-insensitively, but every dict compared in this development is built by
  a deterministic code path, where the two notions coincide.
-/

/-- A Python value as used by the workflow engine: `None`, `bool`, a number
(int or float, modelled exactly as a rational), `str`, `list`, and `dict`
with string keys (the only kind of dict the engine builds or reads). -/
inductive PyValue where
  | none
  | bool (b : Bool)
  | num (q : Rat)
  | str (s : String)
  | list (xs : List PyValue)
  | dict (kvs : List (String × PyValue))

/-- Python truthiness (`bool(v)`): `None`, `False`, `0`, `""`, `[]`, `{}` are
falsy, everything else truthy. -/
def pyTruthy : PyValue → Bool
  | PyValue.none => false
  | PyValue.bool b => b
  | PyValue.num q => q != 0
  | PyValue.str s => s != ""
  | PyValue.list xs => !xs.isEmpty
  | PyValue.dict kvs => !kvs.isEmpty

/-- `True`/`False` as the numbers Python coerces them to. -/
def boolRat (b : Bool) : Rat := if b then 1 else 0

mutual

/-- Python `==` on `PyValue` (total, never raises): numbers and bools compare
numerically (`True == 1`), lists elementwise, dicts pointwise in key order
(see the file comment). -/
def pyEq : PyValue → PyValue → Bool
  | PyValue.none, PyValue.none => true
  | PyValue.bool a, PyValue.bool b => a == b
  | PyValue.bool a, PyValue.num m => boolRat a == m
  | PyValue.num n, PyValue.bool b => n == boolRat b
  | PyValue.num a, PyValue.num b => a == b
  | PyValue.str a, PyValue.str b => a == b
  | PyValue.list xs, PyValue.list ys => pyEqList xs ys
  | PyValue.dict xs, PyValue.dict ys => pyEqPairs xs ys
  | _, _ => false

def pyEqList : List PyValue → List PyValue → Bool
  | [], [] => true
  | x :: xs, y :: ys => pyEq x y && pyEqList xs ys
  | _, _ => false

def pyEqPairs : List (String × PyValue) → List (String × PyValue) → Bool
  | [], [] => true
  | (k1, v1) :: xs, (k2, v2) :: ys => k1 == k2 && pyEq v1 v2 && pyEqPairs xs ys
  | _, _ => false

end

/-- Three-way comparison on rationals (used for Python `<`, `>`, `<=`, `>=`). -/
def ratCmp (a b : Rat) : Ordering :=
  if a < b then Ordering.lt else if b < a then Ordering.gt else Ordering.eq

/-- Three-way comparison on strings (Python compares strings lexicographically
by code point, as `compare` on `String` does). -/
def strCmp (a b : String) : Ordering := compare a b

mutual

/-- Python's ordering comparison (`a < b` and friends): defined between
numbers/bools, between strings, and between lists (lexicographic, Python
style); any other pair raises `TypeError`. -/
def pyCompare : PyValue → PyValue → Except String Ordering
  | PyValue.bool a, PyValue.bool b => Except.ok (ratCmp (boolRat a) (boolRat b))
  | PyValue.bool a, PyValue.num m => Except.ok (ratCmp (boolRat a) m)
  | PyValue.num n, PyValue.bool b => Except.ok (ratCmp n (boolRat b))
  | PyValue.num a, PyValue.num b => Except.ok (ratCmp a b)
  | PyValue.str a, PyValue.str b => Except.ok (strCmp a b)
  | PyValue.list xs, PyValue.list ys => pyCompareList xs ys
  | _, _ => Except.error "TypeError: comparison not supported between these operand types"

/-- Python list comparison: skip the longest `==`-equal prefix, order the
first differing pair (which may raise), else order by length. -/
def pyCompareList : List PyValue → List PyValue → Except String Ordering
  | [], [] => Except.ok Ordering.eq
  | [], _ :: _ => Except.ok Ordering.lt
  | _ :: _, [] => Except.ok Ordering.gt
  | x :: xs, y :: ys => if pyEq x y then pyCompareList xs ys else pyCompare x y

end

/-- Is `needle` an initial segment of `hay`? (helper for Python `in` on strings). -/
def charsStart : List Char → List Char → Bool
  | [], _ => true
  | _ :: _, [] => false
  | a :: as_, b :: bs => a == b && charsStart as_ bs

/-- Is `needle` a contiguous substring of `hay`? (Python `needle in hay` for strings). -/
def charsSub (needle : List Char) : List Char → Bool
  | [] => needle.isEmpty
  | c :: rest => charsStart needle (c :: rest) || charsSub needle rest

/-- Python `sub in s` for strings. -/
def strIn (sub s : String) : Bool := charsSub sub.data s.data

/-- Lookup in a string-keyed dict (`d.get(k)` without default: `None` if absent). -/
def dictLookup (kvs : List (String × PyValue)) (k : String) : Option PyValue :=
  (kvs.find? (fun kv => kv.1 == k)).map (·.2)

/-- Python `d[k] = v` on an insertion-ordered dict: replace in place if the key
exists, else append. -/
def dictSet (kvs : List (String × PyValue)) (k : String) (v : PyValue) :
    List (String × PyValue) :=
  if (kvs.find? (fun kv => kv.1 == k)).isSome then
    kvs.map (fun kv => if kv.1 == k then (k, v) else kv)
  else
    kvs ++ [(k, v)]

/-- Python `{**d, k1: v1, ...}`: start from `d` and set each new pair in order.
Raises `TypeError` when the spread argument is not a dict. -/
def dictUpdate (v : PyValue) (extra : List (String × PyValue)) : Except String PyValue :=
  match v with
  | PyValue.dict kvs =>
      Except.ok (PyValue.dict (extra.foldl (fun acc kv => dictSet acc kv.1 kv.2) kvs))
  | _ => Except.error "TypeError: argument after ** must be a mapping"

/-- Value of a (non-empty) list of decimal digit characters. -/
def digitsVal (l : List Char) : Nat :=
  l.foldl (fun a c => a * 10 + (c.toNat - 48)) 0

/-- Parse the decimal notations accepted by Python `float(str)` that this
development needs: optional sign, digits, optional point and fraction digits
(scientific notation, inf/nan — unused by the repository's configs — are not
modelled and parse as failures). -/
def parseDecimal (s : String) : Option Rat :=
  let cs := s.data
  let (neg, cs1) :=
    match cs with
    | '-' :: r => (true, r)
    | '+' :: r => (false, r)
    | _ => (false, cs)
  let ip := cs1.takeWhile Char.isDigit
  let rest := cs1.drop ip.length
  let build (ipart fpart : List Char) : Option Rat :=
    if ipart.isEmpty && fpart.isEmpty then Option.none
    else
      let q : Rat := (digitsVal ipart : Rat) + (digitsVal fpart : Rat) / (10 : Rat) ^ fpart.length
      some (if neg then -q else q)
  match rest with
  | [] => build ip []
  | '.' :: fp => if fp.all Char.isDigit then build ip fp else Option.none
  | _ => Option.none

/-- Python `float(v)` (pydantic-independent, the builtin): numbers pass
through, bools coerce (`float(True) = 1.0`), strings are parsed, everything
else is a `TypeError`. -/
def pyFloat : PyValue → Except String Rat
  | PyValue.num q => Except.ok q
  | PyValue.bool b => Except.ok (boolRat b)
  | PyValue.str s =>
      match parseDecimal s.trim with
      | some q => Except.ok q
      | Option.none => Except.error s!"could not convert string to float: {s}"
  | PyValue.none => Except.error "float() argument must be a string or a real number, not NoneType"
  | _ => Except.error "float() argument must be a string or a real number"

/-- Python `int(v)`: numbers truncate toward zero, bools coerce, integer
strings parse, everything else raises. -/
def pyInt : PyValue → Except String Int
  | PyValue.num q => Except.ok (Int.tdiv q.num (q.den : Int))
  | PyValue.bool b => Except.ok (if b then 1 else 0)
  | PyValue.str s =>
      let cs := s.trim.data
      let (neg, ds) :=
        match cs with
        | '-' :: r => (true, r)
        | '+' :: r => (false, r)
        | _ => (false, cs)
      if !ds.isEmpty && ds.all Char.isDigit then
        Except.ok (if neg then -(digitsVal ds : Int) else (digitsVal ds : Int))
      else Except.error s!"invalid literal for int() with base 10: {s}"
  | _ => Except.error "int() argument must be a string or a number"

/-- Render a Python float the way an f-string does, for the values this
development meets: an integral value prints with a trailing `.0`, a value
with a finite decimal expansion prints that expansion. -/
def pyFloatRepr (q : Rat) : String :=
  let sign := if q < 0 then "-" else ""
  let a : Rat := |q|
  if a.den == 1 then sign ++ toString a.num ++ ".0"
  else
    match (List.range 27).find? (fun k => (a * (10 : Rat) ^ (k + 1)).den == 1) with
    | some k =>
        let kk := k + 1
        let scaled := (a * (10 : Rat) ^ kk).num.toNat
        let ds := Nat.toDigits 10 scaled
        let padded := List.replicate (kk + 1 - ds.length) '0' ++ ds
        let ipart := padded.take (padded.length - kk)
        let fpart := padded.drop (padded.length - kk)
        sign ++ String.mk ipart ++ "." ++ String.mk fpart
    | Option.none => sign ++ toString a.num ++ "/" ++ toString a.den

/-- Python `str(v)` as an f-string renders it, to the precision the verified
messages need (list/dict rendering is approximate and unused). -/
def pyStr : PyValue → String
  | PyValue.none => "None"
  | PyValue.bool b => if b then "True" else "False"
  | PyValue.num q => if q.den == 1 then toString q.num else pyFloatRepr q
  | PyValue.str s => s
  | PyValue.list _ => "[...]"
  | PyValue.dict _ => "\x7b...\x7d"

/-- `round(x, 3)` on the modelled clock values.  Python rounds half to even;
this model rounds half up — no verified value sits on a half-thousandth
boundary, where alone the two differ. -/
def round3 (q : Rat) : Rat := ((q * 1000 + 1 / 2).floor : Rat) / 1000

/-- A node's `config` dict (`Dict[str, Any]` in the source). -/
abbrev PyConfig := List (String × PyValue)

/-- `config.get(k)`: `None` both when the key is absent and when it maps to `None`. -/
def configGet (cfg : PyConfig) (k : String) : PyValue :=
  (dictLookup cfg k).getD PyValue.none

/-- `config.get(k, d)`. -/
def configGetD (cfg : PyConfig) (k : String) (d : PyValue) : PyValue :=
  (dictLookup cfg k).getD d

/-! ## ConditionNode (condition_node.py) -/

/-- `ConditionNode._get_nested_field`: dot-path traversal, any break in the
structure yields `None`. -/
def getNestedField (data : PyValue) (field_path : String) : PyValue :=
  go data (field_path.splitOn ".")
where
  go : PyValue → List String → PyValue
    | v, [] => v
    | PyValue.dict kvs, k :: ks => go ((dictLookup kvs k).getD PyValue.none) ks
    | _, _ :: _ => PyValue.none

/-- The keys of `operations` in `ConditionNode._evaluate_condition`. -/
def condOps : List String := ["==", "!=", ">", "<", ">=", "<=", "contains", "in"]

/-- Python `b in a if isinstance(a, (list, str, dict)) else False`
(the `contains` lambda). -/
def pyContains (a b : PyValue) : Except String Bool :=
  match a with
  | PyValue.list xs => Except.ok (xs.any (fun x => pyEq x b))
  | PyValue.str s =>
      match b with
      | PyValue.str t => Except.ok (strIn t s)
      | _ => Except.error "TypeError: 'in <string>' requires string as left operand"
  | PyValue.dict kvs =>
      match b with
      | PyValue.str k => Except.ok (kvs.any (fun kv => kv.1 == k))
      | PyValue.list _ => Except.error "TypeError: unhashable type: 'list'"
      | PyValue.dict _ => Except.error "TypeError: unhashable type: 'dict'"
      | _ => Except.ok false
  | _ => Except.ok false

/-- Python `a in b if isinstance(b, (list, str, dict)) else False`
(the `in` lambda). -/
def pyInOp (a b : PyValue) : Except String Bool :=
  match b with
  | PyValue.list ys => Except.ok (ys.any (fun y => pyEq y a))
  | PyValue.str t =>
      match a with
      | PyValue.str s => Except.ok (strIn s t)
      | _ => Except.error "TypeError: 'in <string>' requires string as left operand"
  | PyValue.dict kvs =>
      match a with
      | PyValue.str k => Except.ok (kvs.any (fun kv => kv.1 == k))
      | PyValue.list _ => Except.error "TypeError: unhashable type: 'list'"
      | PyValue.dict _ => Except.error "TypeError: unhashable type: 'dict'"
      | _ => Except.ok false
  | _ => Except.ok false

/-- Turn an `Ordering` into the result of one of Python's four order operators. -/
def cmpToBool (o : String) (ord : Ordering) : Bool :=
  if o == ">" then ord == Ordering.gt
  else if o == "<" then ord == Ordering.lt
  else if o == ">=" then ord != Ordering.lt
  else if o == "<=" then ord != Ordering.gt
  else false

/-- The body of the `try` in `ConditionNode._evaluate_condition`: operator
lookup (an unsupported operator raises `ValueError`; a non-string operator
makes the membership test itself raise) and the chosen lambda's evaluation.
Every `Except.error` here is caught by the method's `except Exception`. -/
def evalCondInner (field_value operator compare_value : PyValue) : Except String Bool :=
  match operator with
  | PyValue.str o =>
      if o ∈ condOps then
        if o == "==" then Except.ok (pyEq field_value compare_value)
        else if o == "!=" then Except.ok (!pyEq field_value compare_value)
        else if o == "contains" then pyContains field_value compare_value
        else if o == "in" then pyInOp field_value compare_value
        else (pyCompare field_value compare_value).map (cmpToBool o)
      else Except.error s!"Unsupported operator: {o}"
  | _ => Except.error "Unsupported operator: non-string operator"

/-- `ConditionNode._evaluate_condition`: the whole body sits in a
`try ... except Exception: return False`, so the method is total and every
failure — the `Unsupported operator` ValueError included — becomes `false`. -/
def evaluate_condition (field_value operator compare_value : PyValue) : Bool :=
  match evalCondInner field_value operator compare_value with
  | Except.ok b => b
  | Except.error _ => false

/-- What one call of a node's `execute` coroutine does, in the model: the
returned payload or the raised exception, the modelled time it consumed, and
`some l` iff it re-bound `self.next_nodes` to the (new) list `l`. -/
structure ExecOut where
  result : Except String PyValue
  duration : Rat
  nextAfter : Option (List String)

/-- A truthy branch value as a successor list.  `ConditionNodeConfig` types
both branches as `Optional[str]`, so on a constructed node a truthy branch is
a nonempty string. -/
def branchIds : PyValue → List String
  | PyValue.str s => [s]
  | _ => []

/-- `ConditionNode.execute`: extract config, evaluate, re-bind
`self.next_nodes` to the chosen branch, return the input merged with the
evaluation trace.  The merge raises `TypeError` when the input is not a dict —
after the successor mutation already happened. -/
def conditionExecute (node_id : String) (cfg : PyConfig) (input : PyValue) : ExecOut :=
  let field := configGet cfg "field"
  let operator := configGet cfg "operator"
  let compare_value := configGet cfg "value"
  let true_branch := configGet cfg "true_branch"
  let false_branch := configGet cfg "false_branch"
  if !pyTruthy field || !pyTruthy operator then
    ⟨Except.error "'field' and 'operator' are required for Condition node", 0, Option.none⟩
  else
    match field with
    | PyValue.str fs =>
        let field_value := getNestedField input fs
        let result := evaluate_condition field_value operator compare_value
        let nextNew :=
          if result && pyTruthy true_branch then branchIds true_branch
          else if !result && pyTruthy false_branch then branchIds false_branch
          else []
        let trace : PyValue := PyValue.dict
          [("field", field), ("field_value", field_value), ("operator", operator),
           ("compare_value", compare_value), ("result", PyValue.bool result),
           ("next_branch", if result then true_branch else false_branch),
           ("node_id", PyValue.str node_id)]
        { result := dictUpdate input [("_condition_result", trace)],
          duration := 0, nextAfter := some nextNew }
    | _ =>
        -- `field.split(".")` on a truthy non-string raises AttributeError
        ⟨Except.error "AttributeError: object has no attribute split", 0, Option.none⟩

/-! ## DelayNode (delay_node.py) -/

/-- Strip the characters of `"{} "` from both ends (Python `raw.strip("{} ")`). -/
def stripBraceSpace (s : String) : String :=
  let isStrip (c : Char) : Bool := c == '{' || c == '}' || c == ' '
  String.mk (((s.data.dropWhile isStrip).reverse.dropWhile isStrip).reverse)

/-- `float(raw)` wrapped by DelayNode's `except (TypeError, ValueError)`
re-raise. -/
def floatOrValueError (raw : PyValue) : Except String Rat :=
  match pyFloat raw with
  | Except.ok q => Except.ok q
  | Except.error _ =>
      Except.error s!"Invalid 'seconds' value: {pyStr raw}. Must be a numeric value or variable reference."

/-- `DelayNode.execute`: resolve `seconds` (a `{{name}}` template reads the
input, else `float(raw)`), reject negatives, sleep.  In the time model the
sleep takes exactly `seconds`, so the inner `wait_for(..., timeout=seconds+5)`
never fires.  The merge into the input happens after the sleep. -/
def delayExecute (node_id : String) (cfg : PyConfig) (input : PyValue) : ExecOut :=
  let raw_value := configGet cfg "seconds"
  let secondsE : Except String Rat :=
    match raw_value with
    | PyValue.str s =>
        if s.startsWith "\x7b\x7b" && s.endsWith "\x7d\x7d" then
          let variable_name := stripBraceSpace s
          match input with
          | PyValue.dict kvs => pyFloat ((dictLookup kvs variable_name).getD (PyValue.num 0))
          | _ => Except.error "AttributeError: object has no attribute get"
        else floatOrValueError raw_value
    | _ => floatOrValueError raw_value
  match secondsE with
  | Except.error e => ⟨Except.error e, 0, Option.none⟩
  | Except.ok seconds =>
      if seconds < 0 then
        ⟨Except.error "'seconds' must be non-negative", 0, Option.none⟩
      else
        let actual_duration := round3 seconds
        let infoDict : PyValue := PyValue.dict
          [("requested_seconds", PyValue.num seconds),
           ("actual_waited_seconds", PyValue.num actual_duration),
           ("node_id", PyValue.str node_id),
           ("status", PyValue.str "completed")]
        { result := dictUpdate input [("_delay_info", infoDict)],
          duration := seconds, nextAfter := Option.none }

/-! ## Node config schemas (schemas/node.py, pydantic v2 coercion rules) -/

/-- The `NodeType` enumeration. -/
inductive NodeType where
  | http_request
  | delay
  | condition
  | python_code
  | llm
deriving DecidableEq

/-- The string value of each `NodeType` member. -/
def nodeTypeTag : NodeType → String
  | NodeType.http_request => "http_request"
  | NodeType.delay => "delay"
  | NodeType.condition => "condition"
  | NodeType.python_code => "python_code"
  | NodeType.llm => "llm"

/-- pydantic v2 lax coercion to `float`: numbers pass, numeric strings parse,
bools (and everything else) are rejected. -/
def asFloatLax : PyValue → Option Rat
  | PyValue.num q => some q
  | PyValue.str s => parseDecimal s.trim
  | _ => Option.none

/-- pydantic v2 lax coercion to `int`: integral numbers, integer strings. -/
def asIntLax : PyValue → Option Int
  | PyValue.num q => if q.den == 1 then some q.num else Option.none
  | PyValue.str s =>
      match parseDecimal s.trim with
      | some q => if q.den == 1 then some q.num else Option.none
      | Option.none => Option.none
  | _ => Option.none

/-- Is the value a `str`? (pydantic v2 does not coerce numbers to `str`). -/
def isPyStr : PyValue → Bool
  | PyValue.str _ => true
  | _ => false

/-- An `Optional[str]` field value: absent, `None` or a string. -/
def optStrOk (cfg : PyConfig) (k : String) : Bool :=
  match dictLookup cfg k with
  | Option.none => true
  | some PyValue.none => true
  | some (PyValue.str _) => true
  | some _ => false

/-- `DelayNodeConfig`: `seconds: float = Field(gt=0)`.  (Error texts below
approximate pydantic's; no verified claim inspects them.) -/
def validateDelayConfig (cfg : PyConfig) : Except String Unit :=
  match dictLookup cfg "seconds" with
  | Option.none => Except.error "validation error for DelayNodeConfig: seconds field required"
  | some v =>
      match asFloatLax v with
      | Option.none => Except.error "validation error for DelayNodeConfig: seconds must be a number"
      | some q =>
          if q > 0 then Except.ok ()
          else Except.error "validation error for DelayNodeConfig: seconds must be greater than 0"

/-- `ConditionNodeConfig`: `field: str`, `operator: str`, `value: Any`
(required), `true_branch`/`false_branch: Optional[str] = None`. -/
def validateConditionConfig (cfg : PyConfig) : Except String Unit :=
  match dictLookup cfg "field", dictLookup cfg "operator", dictLookup cfg "value" with
  | some f, some o, some _ =>
      if isPyStr f && isPyStr o && optStrOk cfg "true_branch" && optStrOk cfg "false_branch"
      then Except.ok ()
      else Except.error "validation error for ConditionNodeConfig"
  | _, _, _ => Except.error "validation error for ConditionNodeConfig: field required"

/-- `HTTPNodeConfig`: `url: str` required; `method: str = "GET"`;
`headers: Dict[str, str]`; `body: Optional[Dict]`; `timeout: int = 30`. -/
def validateHTTPConfig (cfg : PyConfig) : Except String Unit :=
  let headersOk :=
    match dictLookup cfg "headers" with
    | Option.none => true
    | some (PyValue.dict kvs) => kvs.all (fun kv => isPyStr kv.2)
    | some _ => false
  let bodyOk :=
    match dictLookup cfg "body" with
    | Option.none => true
    | some PyValue.none => true
    | some (PyValue.dict _) => true
    | some _ => false
  let timeoutOk :=
    match dictLookup cfg "timeout" with
    | Option.none => true
    | some v => (asIntLax v).isSome
  let methodOk :=
    match dictLookup cfg "method" with
    | Option.none => true
    | some v => isPyStr v
  match dictLookup cfg "url" with
  | some u =>
      if isPyStr u && methodOk && headersOk && bodyOk && timeoutOk then Except.ok ()
      else Except.error "validation error for HTTPNodeConfig"
  | Option.none => Except.error "validation error for HTTPNodeConfig: url field required"

/-- `PythonNodeConfig`: `code: str` required; `timeout: int = 30`. -/
def validatePythonConfig (cfg : PyConfig) : Except String Unit :=
  let timeoutOk :=
    match dictLookup cfg "timeout" with
    | Option.none => true
    | some v => (asIntLax v).isSome
  match dictLookup cfg "code" with
  | some c =>
      if isPyStr c && timeoutOk then Except.ok ()
      else Except.error "validation error for PythonNodeConfig"
  | Option.none => Except.error "validation error for PythonNodeConfig: code field required"

/-- `LLMNodeConfig`: `prompt: str` required; `model: Optional[str]`;
`temperature: float in [0, 2]`; `max_tokens: int > 0`;
`system_message: Optional[str]`. -/
def validateLLMConfig (cfg : PyConfig) : Except String Unit :=
  let tempOk :=
    match dictLookup cfg "temperature" with
    | Option.none => true
    | some v =>
        match asFloatLax v with
        | some q => 0 ≤ q && q ≤ 2
        | Option.none => false
  let maxTokOk :=
    match dictLookup cfg "max_tokens" with
    | Option.none => true
    | some v =>
        match asIntLax v with
        | some n => 0 < n
        | Option.none => false
  match dictLookup cfg "prompt" with
  | some p =>
      if isPyStr p && optStrOk cfg "model" && optStrOk cfg "system_message"
          && tempOk && maxTokOk then Except.ok ()
      else Except.error "validation error for LLMNodeConfig"
  | Option.none => Except.error "validation error for LLMNodeConfig: prompt field required"

/-- The `schema_map` lookup in `BaseNode.validate_config`: the dict's keys are
the `NodeType` members, which hash as their string values, so a plain string
found in `config["type"]` matches. -/
def schemaFor : PyValue → Option NodeType
  | PyValue.str s =>
      if s == "http_request" then some NodeType.http_request
      else if s == "delay" then some NodeType.delay
      else if s == "condition" then some NodeType.condition
      else if s == "python_code" then some NodeType.python_code
      else if s == "llm" then some NodeType.llm
      else Option.none
  | _ => Option.none

/-- `BaseNode.validate_config`: reads `self.config.get("type")` (note: the
engine's `_build_node_graph` passes the node-specific `config` mapping, which
has no `"type"` key), looks it up in `schema_map`, raises `ValueError` on a
miss, else validates the config against the schema class. -/
def validate_config (cfg : PyConfig) : Except String Unit :=
  let node_type := configGet cfg "type"
  match schemaFor node_type with
  | Option.none => Except.error s!"Unknown or missing node type: {pyStr node_type}"
  | some NodeType.http_request => validateHTTPConfig cfg
  | some NodeType.delay => validateDelayConfig cfg
  | some NodeType.condition => validateConditionConfig cfg
  | some NodeType.python_code => validatePythonConfig cfg
  | some NodeType.llm => validateLLMConfig cfg

/-! ## Node instances and the registry (nodes/base.py, nodes/registry.py) -/

/-- A constructed `BaseNode` instance: identity, config, successor list and
error handler (set by the engine from the node's schema). -/
structure Node where
  node_id : String
  name : String
  ntype : NodeType
  config : PyConfig
  next_nodes : List String
  on_error : Option String

/-- The externally-backed node behaviors (HTTP transport, sandboxed python,
LLM provider).  Their `execute` bodies talk to the outside world, so the
engine embedding is parameterized over them; no verified claim executes one. -/
structure ExtBehavior where
  http : PyConfig → PyValue → ExecOut
  python : PyConfig → PyValue → ExecOut
  llm : PyConfig → PyValue → ExecOut

/-- Dispatch of `self.execute(...)` over the node's class. -/
def executeNode (ext : ExtBehavior) (node : Node) (input : PyValue) : ExecOut :=
  match node.ntype with
  | NodeType.delay => delayExecute node.node_id node.config input
  | NodeType.condition => conditionExecute node.node_id node.config input
  | NodeType.http_request => ext.http node.config input
  | NodeType.python_code => ext.python node.config input
  | NodeType.llm => ext.llm node.config input

/-- The result dict assembled by `BaseNode.run`. -/
structure RunResult where
  node_id : String
  node_name : String
  status : String
  output : PyValue
  error : Option String
  execution_time : Rat
  next_nodes : List String

/-- `result["next_nodes"] = [self.on_error]` if the handler is truthy (an
empty string is falsy, like `None`), else `[]`. -/
def errorNext (node : Node) : List String :=
  match node.on_error with
  | some e => if e == "" then [] else [e]
  | Option.none => []

/-- What one iteration of the retry loop in `BaseNode.run` observes. -/
inductive AttemptRes where
  | success (out : PyValue) (dur : Rat)
  | timeoutFail (timeout : Rat)
  | genericFail (msg : String) (dur : Rat)

/-- The body of the `try` in `BaseNode.run`: `validate_config()`, then
`timeout = float(self.config.get("timeout", 60))`, then
`await asyncio.wait_for(self.execute(...), timeout=timeout)`.  A failure of
the first two steps is an ordinary exception; `wait_for` raises
`asyncio.TimeoutError` iff the execute's modelled duration exceeds the
timeout. -/
def oneAttempt (ext : ExtBehavior) (node : Node) (input : PyValue) : AttemptRes :=
  match validate_config node.config with
  | Except.error e => AttemptRes.genericFail e 0
  | Except.ok () =>
      match pyFloat (configGetD node.config "timeout" (PyValue.num 60)) with
      | Except.error e => AttemptRes.genericFail e 0
      | Except.ok timeout =>
          let ex := executeNode ext node input
          if ex.duration > timeout then AttemptRes.timeoutFail timeout
          else
            match ex.result with
            | Except.ok out => AttemptRes.success out ex.duration
            | Except.error e => AttemptRes.genericFail e ex.duration

/-- The value `run` returns plus bookkeeping the proofs need: the loop
variable `attempt` at exit and the un-rounded wall time the call consumed. -/
structure RunOut where
  result : RunResult
  attempts : Nat
  elapsed : Rat

/-- The `while attempt <= retries` loop of `BaseNode.run`, on fuel
`retries + 1 - attempt`:

* fuel `0` — the loop body never runs (possible when `retries < 0`); the
  default result dict survives: status `"success"`, output `None`.
* success — sets output and status, breaks; `next_nodes` keeps the list
  captured when the result dict was created (`ConditionNode.execute` re-binds
  `self.next_nodes` rather than mutating the captured list, so the branch
  decision never reaches the result).
* `asyncio.TimeoutError` — counts the attempt, records the message, and falls
  through to the error-handler assignment and `break`: the retry `continue`
  sits only in the generic `except Exception` branch, so a timed-out attempt
  is never retried.
* other exception — counts the attempt; if attempts remain, sleeps
  `retry_delay` and retries, else falls through to the error-handler
  assignment and breaks. -/
def runAttempts (ext : ExtBehavior) (node : Node) (input : PyValue)
    (retry_delay : Rat) (initialNext : List String) :
    Nat → Nat → Rat → RunOut
  | 0, attempt, elapsed =>
      { result := { node_id := node.node_id, node_name := node.name,
                    status := "success", output := PyValue.none,
                    error := Option.none, execution_time := round3 elapsed,
                    next_nodes := initialNext },
        attempts := attempt, elapsed := elapsed }
  | Nat.succ fuel, attempt, elapsed =>
      match oneAttempt ext node input with
      | AttemptRes.success out dur =>
          let e' := elapsed + dur
          { result := { node_id := node.node_id, node_name := node.name,
                        status := "success", output := out,
                        error := Option.none, execution_time := round3 e',
                        next_nodes := initialNext },
            attempts := attempt, elapsed := e' }
      | AttemptRes.timeoutFail timeout =>
          let e' := elapsed + max timeout 0
          let ts := pyFloatRepr timeout
          { result := { node_id := node.node_id, node_name := node.name,
                        status := "error", output := PyValue.none,
                        error := some s!"Node timed out after {ts}s",
                        execution_time := round3 e', next_nodes := errorNext node },
            attempts := attempt + 1, elapsed := e' }
      | AttemptRes.genericFail msg dur =>
          let e' := elapsed + dur
          if fuel == 0 then
            { result := { node_id := node.node_id, node_name := node.name,
                          status := "error", output := PyValue.none,
                          error := some msg, execution_time := round3 e',
                          next_nodes := errorNext node },
              attempts := attempt + 1, elapsed := e' }
          else
            runAttempts ext node input retry_delay initialNext fuel (attempt + 1)
              (e' + retry_delay)

/-- `BaseNode.run`: the retry bookkeeping runs before the `try`, so a
non-numeric `retries`/`retry_delay` raises out of `run` itself (the `Except`
layer); otherwise the retry loop always yields a result dict. -/
def runNode (ext : ExtBehavior) (node : Node) (input : PyValue) : Except String RunOut := do
  let retriesI ← pyInt (configGetD node.config "retries" (PyValue.num 0))
  let retry_delay ← pyFloat (configGetD node.config "retry_delay" (PyValue.num 1))
  let initialNext := node.next_nodes
  Except.ok (runAttempts ext node input retry_delay initialNext (retriesI + 1).toNat 0 0)

/-- `NodeRegistry.create_node` followed by the class constructor: every
`NodeType` member is registered, and each built-in class validates its config
against its pydantic schema in `__init__` (raising on failure). -/
def create_node (node_id name : String) (node_type : NodeType) (config : PyConfig) :
    Except String Node :=
  let check :=
    match node_type with
    | NodeType.http_request => validateHTTPConfig config
    | NodeType.delay => validateDelayConfig config
    | NodeType.condition => validateConditionConfig config
    | NodeType.python_code => validatePythonConfig config
    | NodeType.llm => validateLLMConfig config
  check.map (fun _ =>
    { node_id := node_id, name := name, ntype := node_type, config := config,
      next_nodes := [], on_error := Option.none })

/-! ## Execution state (orchestrator/state.py) -/

/-- The `ExecutionStatus` enumeration. -/
inductive ExecutionStatus where
  | pending
  | running
  | completed
  | failed
  | cancelled
deriving DecidableEq

/-- `WorkflowExecutionState`.  Timestamps live on the modelled rational clock;
`executed_nodes` (a Python `set`) is a duplicate-free insertion list; the
`global_state` dict (only ids and the start time, read by no claim) is
omitted. -/
structure WorkflowExecutionState where
  workflow_id : String
  execution_id : String
  status : ExecutionStatus
  start_time : Option Rat
  end_time : Option Rat
  input_data : PyValue
  output_data : PyValue
  error : Option String
  node_results : List RunResult
  executed_nodes : List String
  pending_nodes : List String

/-- The constructor: status PENDING, `input_data or {}`, empty bookkeeping. -/
def initState (workflow_id execution_id : String) (input_data : PyValue) :
    WorkflowExecutionState :=
  { workflow_id := workflow_id, execution_id := execution_id,
    status := ExecutionStatus.pending, start_time := Option.none,
    end_time := Option.none,
    input_data := if pyTruthy input_data then input_data else PyValue.dict [],
    output_data := PyValue.none, error := Option.none, node_results := [],
    executed_nodes := [], pending_nodes := [] }

/-- `start()`: RUNNING, record the start time (unconditionally). -/
def WorkflowExecutionState.start (s : WorkflowExecutionState) (now : Rat) :
    WorkflowExecutionState :=
  { s with status := ExecutionStatus.running, start_time := some now }

/-- `complete(output_data)`: COMPLETED, record end time and output
(unconditionally — there is no terminal-state guard). -/
def WorkflowExecutionState.complete (s : WorkflowExecutionState)
    (output_data : PyValue) (now : Rat) : WorkflowExecutionState :=
  { s with
    status := ExecutionStatus.completed
    end_time := some now
    output_data := output_data }

/-- `fail(error)`: FAILED, record end time and message (unconditionally). -/
def WorkflowExecutionState.fail (s : WorkflowExecutionState) (error : String)
    (now : Rat) : WorkflowExecutionState :=
  { s with
    status := ExecutionStatus.failed
    end_time := some now
    error := some error }

/-- `cancel()`: CANCELLED, record end time (unconditionally). -/
def WorkflowExecutionState.cancel (s : WorkflowExecutionState) (now : Rat) :
    WorkflowExecutionState :=
  { s with status := ExecutionStatus.cancelled, end_time := some now }

/-- `add_node_result`: append the result; a truthy `node_id` joins the
executed set. -/
def WorkflowExecutionState.add_node_result (s : WorkflowExecutionState)
    (result : RunResult) : WorkflowExecutionState :=
  let s1 := { s with node_results := s.node_results ++ [result] }
  if result.node_id == "" then s1
  else if s1.executed_nodes.contains result.node_id then s1
  else { s1 with executed_nodes := s1.executed_nodes ++ [result.node_id] }

/-- One iteration of the `for` loop in `add_pending_nodes`: enqueue the id
unless it is already executed or already queued. -/
def addPendingOne (st : WorkflowExecutionState) (node_id : String) :
    WorkflowExecutionState :=
  if !st.executed_nodes.contains node_id && !st.pending_nodes.contains node_id
  then { st with pending_nodes := st.pending_nodes ++ [node_id] }
  else st

/-- `add_pending_nodes`: enqueue each id unless it is already executed or
already queued. -/
def WorkflowExecutionState.add_pending_nodes (s : WorkflowExecutionState)
    (node_ids : List String) : WorkflowExecutionState :=
  node_ids.foldl addPendingOne s

/-- `get_next_node`: pop the queue's head, if any. -/
def WorkflowExecutionState.get_next_node (s : WorkflowExecutionState) :
    Option String × WorkflowExecutionState :=
  match s.pending_nodes with
  | [] => (Option.none, s)
  | x :: rest => (some x, { s with pending_nodes := rest })

/-- `has_pending_nodes`. -/
def WorkflowExecutionState.has_pending_nodes (s : WorkflowExecutionState) : Bool :=
  !s.pending_nodes.isEmpty

/-- `get_latest_output`: the last recorded result's `"output"` entry (the
key is always present in a result dict `run` built, so the `.get` default
`{}` is never taken), else the run's input. -/
def WorkflowExecutionState.get_latest_output (s : WorkflowExecutionState) : PyValue :=
  match s.node_results.getLast? with
  | some r => r.output
  | Option.none => s.input_data

/-! ## The orchestration engine (orchestrator/engine.py, orchestrator/executor.py) -/

/-- A `NodeSchema` (schemas/node.py): the `type` field is written `ntype`
(`type` is reserved in Lean). -/
structure NodeSchema where
  id : String
  name : String
  ntype : NodeType
  config : PyConfig
  next_nodes : List String
  on_error : Option String

/-- The fields of a `WorkflowResponse` the engine reads (name, description,
timestamps and the active flag play no part in validation or execution). -/
structure WorkflowResponse where
  id : String
  nodes : List NodeSchema
  start_node : String

/-- Python dict assignment `m[k] = v` on a string-keyed association list
(overwrite in place, else append). -/
def assocSet (m : List (String × Node)) (k : String) (v : Node) :
    List (String × Node) :=
  if (m.find? (fun kv => kv.1 == k)).isSome then
    m.map (fun kv => if kv.1 == k then (k, v) else kv)
  else m ++ [(k, v)]

/-- `nodes_map.get(node_id)`. -/
def nodeLookup (m : List (String × Node)) (k : String) : Option Node :=
  (m.find? (fun kv => kv.1 == k)).map (·.2)

/-- `WorkflowEngine._build_node_graph`: create each node via the registry
(constructor validation may raise — and `_build_node_graph` runs outside
`execute_workflow`'s `try`), set its successors and error handler, and store
it under its id; a duplicate id silently overwrites the earlier node. -/
def buildNodeGraph (wf : WorkflowResponse) : Except String (List (String × Node)) :=
  wf.nodes.foldlM
    (fun acc ns => do
      let node ← create_node ns.id ns.name ns.ntype ns.config
      let node := { node with next_nodes := ns.next_nodes, on_error := ns.on_error }
      Except.ok (assocSet acc ns.id node))
    []

/-- `node_input = state.get_latest_output() if state.node_results else initial_input`. -/
def engineNodeInput (s : WorkflowExecutionState) (initial_input : PyValue) : PyValue :=
  if s.node_results.isEmpty then initial_input else s.get_latest_output

/-- What one iteration of the `while` loop in `_execute_nodes` does (entered
only under the loop guard): `break` out, continue with a new state, or raise. -/
inductive StepOut where
  | exitLoop (s : WorkflowExecutionState) (clock : Rat)
  | cont (s : WorkflowExecutionState) (clock : Rat)
  | raised (e : String) (s : WorkflowExecutionState) (clock : Rat)

/-- One iteration of `_execute_nodes`: pop the queue (a falsy id breaks), skip
unknown ids with a warning, else run the node through the executor
(`NodeExecutor.execute_node`: build the context, call `run`, record the
result), then enqueue successors / error handler, or raise `RuntimeError` on
an unhandled node error.  An exception escaping `run` itself also
surfaces here as `raised`. -/
def engineStep (ext : ExtBehavior) (nodes_map : List (String × Node))
    (initial_input : PyValue) (s : WorkflowExecutionState) (clock : Rat) : StepOut :=
  match s.get_next_node with
  | (Option.none, s1) => StepOut.exitLoop s1 clock
  | (some node_id, s1) =>
      if node_id == "" then StepOut.exitLoop s1 clock
      else
        match nodeLookup nodes_map node_id with
        | Option.none => StepOut.cont s1 clock
        | some node =>
            let node_input := engineNodeInput s1 initial_input
            match runNode ext node node_input with
            | Except.error e => StepOut.raised e s1 clock
            | Except.ok ro =>
                let clock' := clock + ro.elapsed
                let s2 := s1.add_node_result ro.result
                if ro.result.status == "success" then
                  StepOut.cont (s2.add_pending_nodes ro.result.next_nodes) clock'
                else if ro.result.status == "error" then
                  if !ro.result.next_nodes.isEmpty then
                    StepOut.cont (s2.add_pending_nodes ro.result.next_nodes) clock'
                  else
                    let errStr :=
                      match ro.result.error with
                      | some e => e
                      | Option.none => "None"
                    StepOut.raised s!"Node {node_id} failed: {errStr}" s2 clock'
                else StepOut.cont s2 clock'

/-- `max_iterations` in `_execute_nodes`. -/
def max_iterations : Nat := 1000

/-- The message of the iteration-cap `RuntimeError`. -/
def capMsg : String :=
  "Workflow execution exceeded maximum iterations (possible infinite loop)"

/-- `_execute_nodes`: the guarded loop (`while state.has_pending_nodes() and
iterations < max_iterations`), with `iterations += 1` at the top of the body,
followed by the post-loop check `if iterations >= max_iterations: raise`.
A `break` reaches that check with the already-incremented counter; a raise
inside the body skips it.  Errors carry the state and clock at the raise. -/
def execLoopF (ext : ExtBehavior) (nodes_map : List (String × Node))
    (initial_input : PyValue) :
    Nat → WorkflowExecutionState → Rat → Nat →
    Except (String × WorkflowExecutionState × Rat) (WorkflowExecutionState × Rat)
  | 0, s, clock, iterations =>
      -- fuel is `max_iterations - iterations`, so with no fuel left the loop
      -- guard `iterations < max_iterations` is false: fall to the post-loop check
      if max_iterations ≤ iterations then Except.error (capMsg, s, clock)
      else Except.ok (s, clock)
  | Nat.succ fuel, s, clock, iterations =>
      if s.has_pending_nodes && decide (iterations < max_iterations) then
        match engineStep ext nodes_map initial_input s clock with
        | StepOut.exitLoop s' c' =>
            if max_iterations ≤ iterations + 1 then Except.error (capMsg, s', c')
            else Except.ok (s', c')
        | StepOut.raised e s' c' => Except.error (e, s', c')
        | StepOut.cont s' c' => execLoopF ext nodes_map initial_input fuel s' c' (iterations + 1)
      else
        if max_iterations ≤ iterations then Except.error (capMsg, s, clock)
        else Except.ok (s, clock)

/-- `_execute_nodes` entered with the iteration counter at `iterations`
(`0` in the source; the general entry point lets the proofs talk about the
last iterations).  The fuel `max_iterations - iterations` bounds the
structural recursion exactly as the loop guard bounds the loop. -/
def execLoop (ext : ExtBehavior) (nodes_map : List (String × Node))
    (initial_input : PyValue) (s : WorkflowExecutionState) (clock : Rat)
    (iterations : Nat) :
    Except (String × WorkflowExecutionState × Rat) (WorkflowExecutionState × Rat) :=
  execLoopF ext nodes_map initial_input (max_iterations - iterations) s clock iterations

/-- The message of the workflow-wide timeout failure. -/
def timeoutMsg (max_time : Rat) : String :=
  let ts := pyStr (PyValue.num max_time)
  s!"Workflow execution exceeded maximum time of {ts} seconds"

/-- How `execute_workflow` finalizes the loop's outcome.
`max_workflow_execution_time` is `settings.max_workflow_execution_time` (an
int, default 3600, overridable by environment).  The `asyncio.wait_for`
around `_execute_nodes` is modelled as the comparison of the loop's modelled
elapsed time against that bound; otherwise the `try`/`except` turns a loop
exception into `state.fail` and a clean exit into
`state.complete(get_latest_output())`. -/
def finalizeRun (max_workflow_execution_time : Rat)
    (r : Except (String × WorkflowExecutionState × Rat) (WorkflowExecutionState × Rat)) :
    WorkflowExecutionState :=
  match r with
  | Except.ok (s, clock) =>
      if clock > max_workflow_execution_time then
        s.fail (timeoutMsg max_workflow_execution_time) clock
      else
        s.complete s.get_latest_output clock
  | Except.error (e, s, clock) =>
      if clock > max_workflow_execution_time then
        s.fail (timeoutMsg max_workflow_execution_time) clock
      else
        s.fail s!"Workflow execution failed: {e}" clock

/-- `WorkflowEngine.execute_workflow`: create and start the state, seed the
queue with the start node, run the loop, finalize.  `_build_node_graph` runs
before the `try`: its exception escapes as the outer `Except.error`. -/
def executeWorkflow (ext : ExtBehavior) (wf : WorkflowResponse)
    (input_data : PyValue) (max_workflow_execution_time : Rat)
    (execution_id : String) : Except String WorkflowExecutionState := do
  let state := initState wf.id execution_id input_data
  let nodes_map ← buildNodeGraph wf
  let state := state.start 0
  let state := state.add_pending_nodes [wf.start_node]
  let current_input := if pyTruthy input_data then input_data else PyValue.dict []
  Except.ok (finalizeRun max_workflow_execution_time
    (execLoop ext nodes_map current_input state 0 0))

/-- The node-id list of a workflow (`node_ids` in `validate_workflow`;
Python builds a set, modelled as the list whose distinct-element count and
membership the checks use). -/
def workflowIds (wf : WorkflowResponse) : List String :=
  wf.nodes.map (fun n => n.id)

/-- The message of the missing-start-node failure. -/
def startMissingMsg (wf : WorkflowResponse) : String :=
  let sn := wf.start_node
  s!"Start node '{sn}' not found in workflow"

/-- The message of a dangling `next_nodes` reference. -/
def danglingNextMsg (nid r : String) : String :=
  s!"Node '{nid}' references non-existent node '{r}'"

/-- The message of a dangling `on_error` reference. -/
def danglingErrMsg (nid e : String) : String :=
  s!"Node '{nid}' references non-existent error handler '{e}'"

/-- The message of the duplicate-id failure. -/
def duplicateMsg : String := "Duplicate node IDs found in workflow"

/-- The per-node reference check inside `validate_workflow`'s loop: the first
dangling `next_nodes` entry, else a dangling truthy `on_error`
(`if node.on_error and ...`: `None` and `""` are both falsy). -/
def refError (node_ids : List String) (node : NodeSchema) : Option String :=
  match node.next_nodes.find? (fun r => !node_ids.contains r) with
  | some r => some (danglingNextMsg node.id r)
  | Option.none =>
      match node.on_error with
      | some e =>
          if e != "" && !node_ids.contains e then
            some (danglingErrMsg node.id e)
          else Option.none
      | Option.none => Option.none

/-- `WorkflowEngine.validate_workflow`: start node present, every
`next_nodes`/`on_error` reference resolvable, no duplicate ids (checked in
that order; `len(node_ids) != len(workflow.nodes)` compares the number of
distinct ids — `List.dedup` — with the node count). -/
def validate_workflow (wf : WorkflowResponse) :
    Bool × Option String :=
  let node_ids := workflowIds wf
  if !node_ids.contains wf.start_node then
    (false, some (startMissingMsg wf))
  else
    match wf.nodes.findSome? (refError node_ids) with
    | some msg => (false, some msg)
    | Option.none =>
        if node_ids.dedup.length != wf.nodes.length then
          (false, some duplicateMsg)
        else (true, Option.none)

/-! ## Concrete fixtures used by the theorems -/

/-- A placeholder for the externally-backed behaviors; no theorem below
executes an HTTP, python or LLM node. -/
def extUnused : ExtBehavior :=
  { http := fun _ _ => ⟨Except.error "external", 0, Option.none⟩,
    python := fun _ _ => ⟨Except.error "external", 0, Option.none⟩,
    llm := fun _ _ => ⟨Except.error "external", 0, Option.none⟩ }

/-- The delay config of claim C1 and of the repository's own
`test_delay_node`: exactly `{"seconds": 0.1}`. -/
def delayCfgC1 : PyConfig := [("seconds", PyValue.num (mkRat 1 10))]

/-- A delay node built from `delayCfgC1`, defaults elsewhere (as
`DelayNode("node1", ..., {"seconds": 0.1})` with no successors). -/
def delayNodeC1 : Node :=
  { node_id := "node1", name := "Delay", ntype := NodeType.delay,
    config := delayCfgC1, next_nodes := [], on_error := Option.none }

/-- The one-node workflow around `delayNodeC1`. -/
def wfC1 : WorkflowResponse :=
  { id := "wf1",
    nodes := [{ id := "node1", name := "Delay", ntype := NodeType.delay,
                config := delayCfgC1, next_nodes := [], on_error := Option.none }],
    start_node := "node1" }

/-- C1: a delay node with config exactly `{"seconds": 0.1}`, run by the
engine under a 1-second workflow timeout, is claimed to succeed with
`execution_time >= 0.1` and not to fail the run.  The code does the opposite:
`BaseNode.validate_config` reads `self.config.get("type")`, the engine-built
config has no `"type"` key, so every attempt raises
`ValueError("Unknown or missing node type: None")`; the result is
`status="error"` with `execution_time = 0`, and the run — the node having no
error handler — is finalized FAILED.  (The repository's own `test_delay_node`
asserts `status == "success"` for this exact config.) -/
theorem C1_delay_node_without_type_key_fails :
    (runNode extUnused delayNodeC1 (PyValue.dict []) = Except.ok
      { result := { node_id := "node1", node_name := "Delay", status := "error",
                    output := PyValue.none,
                    error := some "Unknown or missing node type: None",
                    execution_time := 0, next_nodes := [] },
        attempts := 1, elapsed := 0 })
    ∧ ((executeWorkflow extUnused wfC1 (PyValue.dict []) 1 "exec").toOption.map
        (fun s => (s.status, s.error)) =
      some (ExecutionStatus.failed,
        some "Workflow execution failed: Node node1 failed: Unknown or missing node type: None")) := by
  constructor
  · with_unfolding_all rfl
  · with_unfolding_all rfl

/-- The condition config of claim C2 (and of the repository's
`test_condition_node_true`/`false`). -/
def condCfgC2 : PyConfig :=
  [("field", PyValue.str "status"), ("operator", PyValue.str "=="),
   ("value", PyValue.str "active"), ("true_branch", PyValue.str "A"),
   ("false_branch", PyValue.str "B")]

/-- A condition node built from `condCfgC2` (statically configured
successors: none, as in the repository's tests). -/
def condNodeC2 : Node :=
  { node_id := "cond1", name := "Check", ntype := NodeType.condition,
    config := condCfgC2, next_nodes := [], on_error := Option.none }

/-- `condNodeC2` with a `"type": "condition"` entry added to its config, the
only way `validate_config` can pass, isolating the successor-capture defect. -/
def condNodeC2T : Node :=
  { condNodeC2 with config := ("type", PyValue.str "condition") :: condCfgC2 }

/-- Input `{"status": "active"}`. -/
def inputActive : PyValue := PyValue.dict [("status", PyValue.str "active")]

/-- Input `{"status": "inactive"}`. -/
def inputInactive : PyValue := PyValue.dict [("status", PyValue.str "inactive")]

/-- C2: the claim (and the repository's `test_condition_node_true`) expects
the node result's successor list to be `["A"]` on `{"status": "active"}` and
`["B"]` on `{"status": "inactive"}`.  The code cannot produce that:
(1) with the claimed config, `validate_config` fails (no `"type"` key in the
config), so the run errors with successor list `[]`;
(2) even with `"type": "condition"` added so the node runs, `BaseNode.run`
stores the list object `self.next_nodes` pointed at when the result dict was
created, and `ConditionNode.execute` re-binds `self.next_nodes` to a new list
instead of mutating the captured one — the evaluation trace records the
branch (`nextAfter = some ["A"]` / `some ["B"]`), but the returned result
keeps the pre-execution successor list `[]`. -/
theorem C2_condition_result_successors_unchanged :
    (runNode extUnused condNodeC2 inputActive = Except.ok
      { result := { node_id := "cond1", node_name := "Check", status := "error",
                    output := PyValue.none,
                    error := some "Unknown or missing node type: None",
                    execution_time := 0, next_nodes := [] },
        attempts := 1, elapsed := 0 })
    ∧ (runNode extUnused condNodeC2T inputActive = Except.ok
      { result := { node_id := "cond1", node_name := "Check", status := "success",
                    output := PyValue.dict
                      [("status", PyValue.str "active"),
                       ("_condition_result", PyValue.dict
                         [("field", PyValue.str "status"),
                          ("field_value", PyValue.str "active"),
                          ("operator", PyValue.str "=="),
                          ("compare_value", PyValue.str "active"),
                          ("result", PyValue.bool true),
                          ("next_branch", PyValue.str "A"),
                          ("node_id", PyValue.str "cond1")])],
                    error := Option.none,
                    execution_time := 0, next_nodes := [] },
        attempts := 0, elapsed := 0 })
    ∧ ((runNode extUnused condNodeC2T inputInactive).toOption.map
        (fun ro => (ro.result.status, ro.result.next_nodes)) = some ("success", []))
    ∧ ((conditionExecute "cond1" condCfgC2 inputActive).nextAfter = some ["A"])
    ∧ ((conditionExecute "cond1" condCfgC2 inputInactive).nextAfter = some ["B"]) := by
  refine ⟨?_, ?_, ?_, ?_, ?_⟩
  · with_unfolding_all rfl
  · with_unfolding_all rfl
  · with_unfolding_all rfl
  · with_unfolding_all rfl
  · with_unfolding_all rfl

/-- A delay node whose execute (a 100 s sleep) overruns its per-node timeout
of 1 s, with a retry budget of 2 (`{"type": "delay", "seconds": 100,
"timeout": 1, "retries": 2}`). -/
def delayNodeC3 : Node :=
  { node_id := "slow", name := "Slow", ntype := NodeType.delay,
    config := [("type", PyValue.str "delay"), ("seconds", PyValue.num 100),
               ("timeout", PyValue.num 1), ("retries", PyValue.num 2)],
    next_nodes := ["next1"], on_error := Option.none }

/-- A delay node that fails each attempt with an ordinary exception
(`seconds = -5` is rejected by the schema re-check inside the try), same
retry budget of 2. -/
def delayNodeC3b : Node :=
  { node_id := "bad", name := "Bad", ntype := NodeType.delay,
    config := [("type", PyValue.str "delay"), ("seconds", PyValue.num (-5)),
               ("timeout", PyValue.num 1), ("retries", PyValue.num 2)],
    next_nodes := [], on_error := Option.none }

/-- C3: the claim (with the spec) says a timed-out attempt counts as failed
and, attempts remaining, the node waits `retry_delay` and retries.  The code
does not: the `except asyncio.TimeoutError` branch has no retry `continue` —
it falls straight into the error-handler block (whose comment says "If max
retries exceeded") and breaks.  With `retries = 2`, the timed-out node stops
after a single attempt (`attempts = 1`, total elapsed exactly the 1 s
timeout wait, no retry delay), while the same budget under an ordinary
exception is attempted 3 times with 2 retry-delay sleeps
(`elapsed = 0+1+0+1+0 = 2`). -/
theorem C3_timeout_not_retried :
    (runNode extUnused delayNodeC3 (PyValue.dict []) = Except.ok
      { result := { node_id := "slow", node_name := "Slow", status := "error",
                    output := PyValue.none,
                    error := some "Node timed out after 1.0s",
                    execution_time := 1, next_nodes := [] },
        attempts := 1, elapsed := 1 })
    ∧ ((runNode extUnused delayNodeC3b (PyValue.dict [])).toOption.map
        (fun ro => (ro.result.status, ro.attempts, ro.elapsed)) =
      some ("error", 3, 2)) := by
  constructor
  · with_unfolding_all rfl
  · with_unfolding_all rfl

/-- A run state driven to COMPLETED: fresh state, `start()` at time 0,
`complete({"final": 1})` at time 1. -/
def completedStateC4 : WorkflowExecutionState :=
  ((initState "w" "e" (PyValue.dict [])).start 0).complete
    (PyValue.dict [("final", PyValue.num 1)]) 1

/-- C4, counterexample: the claim says a terminal state absorbs later
`complete`/`fail`/`cancel` calls.  On the code, `cancel()` after `complete()`
replaces the status and end time, and `fail()` after that replaces the
status, end time and error message — nothing is left unchanged. -/
theorem C4_terminal_overwrite_counterexample :
    completedStateC4.status = ExecutionStatus.completed
    ∧ completedStateC4.end_time = some 1
    ∧ (completedStateC4.cancel 2).status = ExecutionStatus.cancelled
    ∧ (completedStateC4.cancel 2).end_time = some 2
    ∧ ((completedStateC4.cancel 2).fail "late failure" 3).status = ExecutionStatus.failed
    ∧ ((completedStateC4.cancel 2).fail "late failure" 3).error = some "late failure" := by
  refine ⟨rfl, rfl, rfl, rfl, rfl, rfl⟩

/-- C4, amended: `complete()`, `fail()` and `cancel()` carry no terminal-state
guard — each sets the status, the end time and its payload unconditionally,
whatever the current status (terminal included); the engine merely never
issues a second terminal transition in one run. -/
theorem C4_terminal_transitions_unconditional (s : WorkflowExecutionState)
    (out : PyValue) (e : String) (t : Rat) :
    ((s.complete out t).status = ExecutionStatus.completed
      ∧ (s.complete out t).end_time = some t
      ∧ (s.complete out t).output_data = out)
    ∧ ((s.fail e t).status = ExecutionStatus.failed
      ∧ (s.fail e t).end_time = some t
      ∧ (s.fail e t).error = some e)
    ∧ ((s.cancel t).status = ExecutionStatus.cancelled
      ∧ (s.cancel t).end_time = some t) := by
  exact ⟨⟨rfl, rfl, rfl⟩, ⟨rfl, rfl, rfl⟩, ⟨rfl, rfl⟩⟩

/-- Equation of `execLoopF` at a successor fuel value (restated so proofs can
unfold exactly one loop iteration at a time). -/
theorem execLoopF_succ_eq (ext : ExtBehavior) (nm : List (String × Node))
    (inp : PyValue) (fuel : Nat) (s : WorkflowExecutionState) (c : Rat) (it : Nat) :
    execLoopF ext nm inp (Nat.succ fuel) s c it =
      (if s.has_pending_nodes && decide (it < max_iterations) then
        match engineStep ext nm inp s c with
        | StepOut.exitLoop s' c' =>
            if max_iterations ≤ it + 1 then Except.error (capMsg, s', c')
            else Except.ok (s', c')
        | StepOut.raised e s' c' => Except.error (e, s', c')
        | StepOut.cont s' c' => execLoopF ext nm inp fuel s' c' (it + 1)
      else
        if max_iterations ≤ it then Except.error (capMsg, s, c)
        else Except.ok (s, c)) := rfl

/-- With an empty pending queue and the iteration counter under the cap, the
loop exits cleanly whatever fuel is left. -/
theorem execLoopF_no_pending (ext : ExtBehavior) (nm : List (String × Node))
    (inp : PyValue) (s : WorkflowExecutionState) (c : Rat) (it : Nat)
    (h : s.has_pending_nodes = false) (hit : it < max_iterations) (fuel : Nat) :
    execLoopF ext nm inp fuel s c it = Except.ok (s, c) := by
  cases fuel with
  | zero => simp [execLoopF, Nat.not_le.mpr hit]
  | succ n => simp [execLoopF, h, Nat.not_le.mpr hit]

/-- C5, amended: `execute_workflow` performs no re-validation
(`validate_workflow` is called only by the API's create/generate routes), so
no definition error is surfaced at execution time; an id absent from the node
map — here a dangling start node — is merely popped and skipped with a logged
warning, after which the drained queue ends the loop and the run is finalized
COMPLETED with no error and no node executed. -/
theorem C5_no_revalidation_dangling_start_completes
    (ext : ExtBehavior) (wf : WorkflowResponse) (input : PyValue)
    (maxT : Rat) (eid : String) (nm : List (String × Node))
    (hbuild : buildNodeGraph wf = Except.ok nm)
    (hstart : nodeLookup nm wf.start_node = Option.none)
    (hmax : 0 ≤ maxT) :
    ∃ s, executeWorkflow ext wf input maxT eid = Except.ok s
      ∧ s.status = ExecutionStatus.completed
      ∧ s.error = Option.none
      ∧ s.node_results = []
      ∧ s.executed_nodes = [] := by
  set s0 := ((initState wf.id eid input).start 0).add_pending_nodes [wf.start_node] with hs0
  have hp : s0.pending_nodes = [wf.start_node] := rfl
  set s1 : WorkflowExecutionState := { s0 with pending_nodes := [] } with hs1
  have hpop : s0.get_next_node = (some wf.start_node, s1) := rfl
  set ci := if pyTruthy input then input else PyValue.dict [] with hci
  have hstep : engineStep ext nm ci s0 0 =
      (if wf.start_node == "" then StepOut.exitLoop s1 0 else StepOut.cont s1 0) := by
    simp only [engineStep, hpop]
    by_cases h : wf.start_node == ""
    · simp [h]
    · simp [h, hstart]
  have hdrained : s1.has_pending_nodes = false := rfl
  have hloop : execLoop ext nm ci s0 0 0 = Except.ok (s1, 0) := by
    show execLoopF ext nm ci (max_iterations - 0) s0 0 0 = Except.ok (s1, 0)
    have h1000 : max_iterations - 0 = Nat.succ 999 := rfl
    have hguard : (s0.has_pending_nodes && decide (0 < max_iterations)) = true := by
      simp [WorkflowExecutionState.has_pending_nodes, hp, max_iterations]
    rw [h1000, execLoopF_succ_eq, hguard, if_pos rfl, hstep]
    by_cases h : wf.start_node == ""
    · rw [if_pos h]
      show (if max_iterations ≤ 0 + 1 then Except.error (capMsg, s1, 0)
            else Except.ok (s1, 0)) = Except.ok (s1, 0)
      rw [if_neg (by decide)]
    · rw [if_neg h]
      show execLoopF ext nm ci 999 s1 0 (0 + 1) = Except.ok (s1, 0)
      exact execLoopF_no_pending ext nm ci s1 0 1 hdrained (by decide) 999
  refine ⟨s1.complete s1.get_latest_output 0, ?_, rfl, rfl, rfl, rfl⟩
  have hrw : executeWorkflow ext wf input maxT eid =
      Except.ok (finalizeRun maxT (execLoop ext nm ci s0 0 0)) := by
    unfold executeWorkflow
    rw [hbuild]
    rfl
  rw [hrw, hloop]
  simp only [finalizeRun]
  rw [if_neg (by exact not_lt.mpr hmax)]

/-- A workflow whose start node id `"ghost"` names no node (one valid delay
node exists but is unreachable). -/
def wfC5 : WorkflowResponse :=
  { id := "wf5",
    nodes := [{ id := "node1", name := "Delay", ntype := NodeType.delay,
                config := [("seconds", PyValue.num 1)], next_nodes := [],
                on_error := Option.none }],
    start_node := "ghost" }

/-- The node map `_build_node_graph` produces for `wfC5`. -/
def nmC5 : List (String × Node) :=
  [("node1", { node_id := "node1", name := "Delay", ntype := NodeType.delay,
               config := [("seconds", PyValue.num 1)], next_nodes := [],
               on_error := Option.none })]

/-- C5, counterexample: the claim says a definition whose start node id is
absent has its error surfaced before any node executes.  Executing `wfC5`
(start node `"ghost"` does not exist) under the default 3600 s budget
surfaces nothing: the run is COMPLETED, with no error, no node result, and
no executed node. -/
theorem C5_invalid_definition_executes_counterexample :
    (executeWorkflow extUnused wfC5 (PyValue.dict []) 3600 "exec").toOption.map
      (fun s => (s.status, s.error, s.node_results.isEmpty, s.executed_nodes)) =
    some (ExecutionStatus.completed, Option.none, true, []) := by
  with_unfolding_all rfl

/-- Witness for C5's amended theorem at the concrete workflow `wfC5`. -/
theorem C5_no_revalidation_witness :
    ∃ s, executeWorkflow extUnused wfC5 (PyValue.dict []) 3600 "exec" = Except.ok s
      ∧ s.status = ExecutionStatus.completed
      ∧ s.error = Option.none
      ∧ s.node_results = []
      ∧ s.executed_nodes = [] :=
  C5_no_revalidation_dangling_start_completes extUnused wfC5 (PyValue.dict [])
    3600 "exec" nmC5 (by with_unfolding_all rfl) (by rfl) (by norm_num)

/-- Is the configured operator one of the supported keys?  (The claim's
"supported set".) -/
def opSupported : PyValue → Bool
  | PyValue.str o => decide (o ∈ condOps)
  | _ => false

/-- A condition node whose operator `"matches"` is outside the supported set
(config carries `"type": "condition"` so `validate_config` passes and the
condition path actually runs). -/
def condNodeC6 : Node :=
  { node_id := "c6", name := "Unsupported", ntype := NodeType.condition,
    config := [("type", PyValue.str "condition"), ("field", PyValue.str "status"),
               ("operator", PyValue.str "matches"), ("value", PyValue.str "x")],
    next_nodes := [], on_error := Option.none }

/-- C6, counterexample: the claim says an unsupported operator makes the
evaluation a failure (a node execution error).  On the code, the
`raise ValueError("Unsupported operator: ...")` sits inside
`_evaluate_condition`'s own `try ... except Exception: return False`, so the
condition evaluates to `false` and the node run succeeds. -/
theorem C6_unsupported_operator_counterexample :
    ((runNode extUnused condNodeC6 (PyValue.dict [("status", PyValue.str "y")])).toOption.map
      (fun ro => (ro.result.status, ro.result.error)) = some ("success", Option.none))
    ∧ evaluate_condition (PyValue.str "y") (PyValue.str "matches") (PyValue.str "x") = false := by
  constructor
  · with_unfolding_all rfl
  · with_unfolding_all rfl

/-- C6, amended: an unsupported (or non-string) operator is treated exactly
like any other evaluation exception — `_evaluate_condition`'s catch-all turns
it into the result `false`, and nothing is propagated: every `Except.error`
of the embedded `try`-body yields `false`. -/
theorem C6_unsupported_operator_swallowed (fv op cv : PyValue)
    (h : opSupported op = false) :
    evaluate_condition fv op cv = false
    ∧ ∀ (fv2 op2 cv2 : PyValue) (e : String),
        evalCondInner fv2 op2 cv2 = Except.error e →
        evaluate_condition fv2 op2 cv2 = false := by
  constructor
  · cases op with
    | str o =>
        have hmem : ¬ o ∈ condOps := of_decide_eq_false h
        simp [evaluate_condition, evalCondInner, hmem]
    | none => rfl
    | bool b => rfl
    | num q => rfl
    | list xs => rfl
    | dict kvs => rfl
  · intro fv2 op2 cv2 e he
    simp [evaluate_condition, he]

/-- Witness for C6's amended theorem at the operator `"matches"`. -/
theorem C6_unsupported_operator_witness :
    evaluate_condition (PyValue.str "y") (PyValue.str "matches") (PyValue.str "x") = false
    ∧ ∀ (fv2 op2 cv2 : PyValue) (e : String),
        evalCondInner fv2 op2 cv2 = Except.error e →
        evaluate_condition fv2 op2 cv2 = false :=
  C6_unsupported_operator_swallowed (PyValue.str "y") (PyValue.str "matches")
    (PyValue.str "x") (by with_unfolding_all rfl)

/-- `add_node_result` always appends the result to `node_results`, whichever
way the executed-set branches go. -/
theorem add_node_result_results (s : WorkflowExecutionState) (r : RunResult) :
    (s.add_node_result r).node_results = s.node_results ++ [r] := by
  unfold WorkflowExecutionState.add_node_result
  split
  · rfl
  · dsimp only
    split
    · rfl
    · rfl

/-- A result of the retry loop whose status is `"error"` has output `None`:
`result["output"]` is assigned only in the branch that also sets status
`"success"` and breaks. -/
theorem runAttempts_error_output_none (ext : ExtBehavior) (node : Node)
    (input : PyValue) (rd : Rat) (initN : List String) :
    ∀ (fuel attempt : Nat) (elapsed : Rat),
      (runAttempts ext node input rd initN fuel attempt elapsed).result.status = "error" →
      (runAttempts ext node input rd initN fuel attempt elapsed).result.output = PyValue.none := by
  intro fuel
  induction fuel with
  | zero =>
      intro attempt elapsed h
      exact absurd h (by simp [runAttempts])
  | succ n ih =>
      intro attempt elapsed h
      simp only [runAttempts] at h ⊢
      cases hone : oneAttempt ext node input with
      | success out dur =>
          simp only [hone] at h
          exact absurd h (by simp)
      | timeoutFail t =>
          simp only [hone]
      | genericFail msg dur =>
          simp only [hone] at h ⊢
          by_cases hf : (n == 0)
          · simp only [hf, if_pos]
          · simp only [hf, Bool.false_eq_true, if_false] at h ⊢
            exact ih (attempt + 1) (elapsed + dur + rd) h

/-- C9: whenever `run` returns a result with status `"error"`, its output is
`None`; recording it makes `get_latest_output` return that `None` (the
`"output"` key exists, so the `.get` default `{}` is not taken) rather than
the run's input; and the engine's input selection for the next popped node —
the error handler included — is therefore `None`, not a dict. -/
theorem C9_error_output_null_propagates (ext : ExtBehavior) (node : Node)
    (input : PyValue) (ro : RunOut) (s : WorkflowExecutionState) (initial : PyValue)
    (hrun : runNode ext node input = Except.ok ro)
    (herr : ro.result.status = "error") :
    ro.result.output = PyValue.none
    ∧ (s.add_node_result ro.result).get_latest_output = PyValue.none
    ∧ engineNodeInput (s.add_node_result ro.result) initial = PyValue.none := by
  have hout : ro.result.output = PyValue.none := by
    unfold runNode at hrun
    cases h1 : pyInt (configGetD node.config "retries" (PyValue.num 0)) with
    | error e => rw [h1] at hrun; simp [Bind.bind, Except.bind] at hrun
    | ok ri =>
        cases h2 : pyFloat (configGetD node.config "retry_delay" (PyValue.num 1)) with
        | error e => rw [h1, h2] at hrun; simp [Bind.bind, Except.bind] at hrun
        | ok rd =>
            rw [h1, h2] at hrun
            simp [Bind.bind, Except.bind] at hrun
            rw [← hrun] at herr ⊢
            exact runAttempts_error_output_none ext node input rd node.next_nodes
              (ri + 1).toNat 0 0 herr
  have hres : (s.add_node_result ro.result).node_results = s.node_results ++ [ro.result] :=
    add_node_result_results s ro.result
  have hlatest : (s.add_node_result ro.result).get_latest_output = PyValue.none := by
    unfold WorkflowExecutionState.get_latest_output
    rw [hres, List.getLast?_concat]
    exact hout
  refine ⟨hout, hlatest, ?_⟩
  unfold engineNodeInput
  rw [hres]
  have hne : (s.node_results ++ [ro.result]).isEmpty = false := by simp
  rw [hne]
  simp only [Bool.false_eq_true, if_false]
  exact hlatest

/-- The error result `run` produces for `delayNodeC1` (used to witness C9). -/
def roC9 : RunOut :=
  { result := { node_id := "node1", node_name := "Delay", status := "error",
                output := PyValue.none,
                error := some "Unknown or missing node type: None",
                execution_time := 0, next_nodes := [] },
    attempts := 1, elapsed := 0 }

/-- A state mid-run with a non-null input dict (to witness that the `None`,
not that input, is handed on). -/
def stateC9 : WorkflowExecutionState :=
  initState "w" "e" (PyValue.dict [("k", PyValue.num 1)])

/-- Witness for C9 at the concrete failing delay node. -/
theorem C9_error_output_null_witness :
    roC9.result.output = PyValue.none
    ∧ (stateC9.add_node_result roC9.result).get_latest_output = PyValue.none
    ∧ engineNodeInput (stateC9.add_node_result roC9.result)
        (PyValue.dict [("k", PyValue.num 1)]) = PyValue.none :=
  C9_error_output_null_propagates extUnused delayNodeC1 (PyValue.dict []) roC9
    stateC9 (PyValue.dict [("k", PyValue.num 1)])
    (by with_unfolding_all rfl) (by rfl)

/-- Equation of `execLoopF` at fuel zero. -/
theorem execLoopF_zero_eq (ext : ExtBehavior) (nm : List (String × Node))
    (inp : PyValue) (s : WorkflowExecutionState) (c : Rat) (it : Nat) :
    execLoopF ext nm inp 0 s c it =
      (if max_iterations ≤ it then Except.error (capMsg, s, c)
       else Except.ok (s, c)) := rfl

/-- C10: a loop entered for its 1000th iteration (counter at 999) whose step
completes normally and leaves the queue empty still ends in the iteration-cap
`RuntimeError` — the post-loop check fires on the counter alone, the natural
drain notwithstanding — and `execute_workflow` finalizes the run FAILED with
the "possible infinite loop" message (the modelled clock staying within the
workflow budget, so the timeout branch is not taken). -/
theorem C10_cap_fires_on_drained_queue (ext : ExtBehavior)
    (nm : List (String × Node)) (inp : PyValue)
    (s s' : WorkflowExecutionState) (c c' maxT : Rat)
    (hpend : s.has_pending_nodes = true)
    (hstep : engineStep ext nm inp s c = StepOut.cont s' c')
    (_hdone : s'.has_pending_nodes = false)
    (hclock : ¬ c' > maxT) :
    execLoop ext nm inp s c 999 = Except.error (capMsg, s', c')
    ∧ (finalizeRun maxT (execLoop ext nm inp s c 999)).status = ExecutionStatus.failed
    ∧ (finalizeRun maxT (execLoop ext nm inp s c 999)).error =
        some "Workflow execution failed: Workflow execution exceeded maximum iterations (possible infinite loop)" := by
  have hloop : execLoop ext nm inp s c 999 = Except.error (capMsg, s', c') := by
    show execLoopF ext nm inp (max_iterations - 999) s c 999 = _
    have hfuel : max_iterations - 999 = Nat.succ 0 := rfl
    have hguard : (s.has_pending_nodes && decide (999 < max_iterations)) = true := by
      simp [hpend, max_iterations]
    rw [hfuel, execLoopF_succ_eq, hguard, if_pos rfl, hstep]
    show execLoopF ext nm inp 0 s' c' (999 + 1) = _
    rw [execLoopF_zero_eq, if_pos (by decide)]
  refine ⟨hloop, ?_, ?_⟩
  · rw [hloop]
    simp only [finalizeRun]
    rw [if_neg hclock]
    rfl
  · rw [hloop]
    simp only [finalizeRun]
    rw [if_neg hclock]
    show some _ = _
    rw [capMsg]
    rfl

/-- A state about to process its single pending id `"ghost"` (which the empty
node map does not resolve, so the step is a skip that drains the queue). -/
def s999 : WorkflowExecutionState :=
  (initState "w" "e" (PyValue.dict [])).add_pending_nodes ["ghost"]

/-- `s999` after the pop. -/
def s999after : WorkflowExecutionState := { s999 with pending_nodes := [] }

/-- Witness for C10: the concrete skip step drains the queue at the cap and
the run still fails with the iteration-cap message. -/
theorem C10_cap_fires_witness :
    execLoop extUnused [] (PyValue.dict []) s999 0 999 =
      Except.error (capMsg, s999after, 0)
    ∧ (finalizeRun 3600 (execLoop extUnused [] (PyValue.dict []) s999 0 999)).status =
        ExecutionStatus.failed
    ∧ (finalizeRun 3600 (execLoop extUnused [] (PyValue.dict []) s999 0 999)).error =
        some "Workflow execution failed: Workflow execution exceeded maximum iterations (possible infinite loop)" :=
  C10_cap_fires_on_drained_queue extUnused [] (PyValue.dict []) s999 s999after
    0 0 3600 (by rfl) (by with_unfolding_all rfl) (by rfl) (by norm_num)

/-! ## C8: the pending-queue invariants as a state machine over the
`WorkflowExecutionState` operations -/

/-- `addPendingOne` keeps a duplicate-free queue duplicate-free (the guard
skips ids already queued). -/
theorem addPendingOne_nodup (s : WorkflowExecutionState) (x : String)
    (h : s.pending_nodes.Nodup) : (addPendingOne s x).pending_nodes.Nodup := by
  unfold addPendingOne
  split
  · rename_i hg
    simp only [Bool.and_eq_true, Bool.not_eq_true'] at hg
    have hx : x ∉ s.pending_nodes := by simpa using hg.2
    dsimp only
    simp [List.nodup_append, h, hx]
  · exact h

/-- `addPendingOne` keeps the queue clear of executed ids (the guard skips
ids already executed, and the executed set is untouched). -/
theorem addPendingOne_noexec (s : WorkflowExecutionState) (x : String)
    (h : ∀ i ∈ s.pending_nodes, i ∉ s.executed_nodes) :
    ∀ i ∈ (addPendingOne s x).pending_nodes, i ∉ (addPendingOne s x).executed_nodes := by
  unfold addPendingOne
  split
  · rename_i hg
    simp only [Bool.and_eq_true, Bool.not_eq_true'] at hg
    have hxe : x ∉ s.executed_nodes := by simpa using hg.1
    dsimp only
    intro i hi
    rcases List.mem_append.mp hi with hi | hi
    · exact h i hi
    · rcases List.mem_singleton.mp hi with rfl
      exact hxe
  · exact h

/-- `add_pending_nodes` preserves queue nodup-ness. -/
theorem add_pending_nodup (ids : List String) :
    ∀ (s : WorkflowExecutionState), s.pending_nodes.Nodup →
      (s.add_pending_nodes ids).pending_nodes.Nodup := by
  induction ids with
  | nil => intro s h; exact h
  | cons x xs ih =>
      intro s h
      exact ih (addPendingOne s x) (addPendingOne_nodup s x h)

/-- `add_pending_nodes` keeps the queue clear of executed ids. -/
theorem add_pending_noexec (ids : List String) :
    ∀ (s : WorkflowExecutionState),
      (∀ i ∈ s.pending_nodes, i ∉ s.executed_nodes) →
      ∀ i ∈ (s.add_pending_nodes ids).pending_nodes,
        i ∉ (s.add_pending_nodes ids).executed_nodes := by
  induction ids with
  | nil => intro s h; exact h
  | cons x xs ih =>
      intro s h
      exact ih (addPendingOne s x) (addPendingOne_noexec s x h)

/-- `add_node_result` leaves the pending queue untouched. -/
theorem add_node_result_pending (s : WorkflowExecutionState) (r : RunResult) :
    (s.add_node_result r).pending_nodes = s.pending_nodes := by
  unfold WorkflowExecutionState.add_node_result
  split
  · rfl
  · dsimp only
    split
    · rfl
    · rfl

/-- Membership in the executed set after `add_node_result`: an old member or
the recorded id. -/
theorem add_node_result_executed_sub (s : WorkflowExecutionState) (r : RunResult)
    (i : String) (h : i ∈ (s.add_node_result r).executed_nodes) :
    i ∈ s.executed_nodes ∨ i = r.node_id := by
  unfold WorkflowExecutionState.add_node_result at h
  split at h
  · exact Or.inl h
  · dsimp only at h
    split at h
    · exact Or.inl h
    · rcases List.mem_append.mp h with h | h
      · exact Or.inl h
      · exact Or.inr (List.mem_singleton.mp h)

/-- Popping leaves the executed set untouched. -/
theorem get_next_node_executed (s : WorkflowExecutionState) :
    ((s.get_next_node).2).executed_nodes = s.executed_nodes := by
  unfold WorkflowExecutionState.get_next_node
  cases s.pending_nodes with
  | nil => rfl
  | cons a rest => rfl

/-- Popping drops the queue's head. -/
theorem get_next_node_pending (s : WorkflowExecutionState) :
    ((s.get_next_node).2).pending_nodes = s.pending_nodes.drop 1 := by
  unfold WorkflowExecutionState.get_next_node
  cases hp : s.pending_nodes with
  | nil =>
      show s.pending_nodes = List.drop 1 []
      rw [hp]
      rfl
  | cons a rest => rfl

/-- An id still queued after a pop was queued before it. -/
theorem get_next_node_pending_sub (s : WorkflowExecutionState) :
    ∀ i ∈ ((s.get_next_node).2).pending_nodes, i ∈ s.pending_nodes := by
  intro i hi
  rw [get_next_node_pending] at hi
  exact List.mem_of_mem_drop hi

/-- The three mutating queue/record operations of `WorkflowExecutionState`
the engine interleaves: `add_pending_nodes`, `get_next_node` (pop) and
`add_node_result` (record). -/
inductive StateOp where
  | enqueue (ids : List String)
  | pop
  | record (r : RunResult)

/-- Apply one operation. -/
def applyOp (s : WorkflowExecutionState) : StateOp → WorkflowExecutionState
  | StateOp.enqueue ids => s.add_pending_nodes ids
  | StateOp.pop => (s.get_next_node).2
  | StateOp.record r => s.add_node_result r

/-- Apply a sequence of operations. -/
def applyOps (s : WorkflowExecutionState) (ops : List StateOp) :
    WorkflowExecutionState :=
  ops.foldl applyOp s

/-- The engine's usage discipline: a result is recorded only for an id that
is not sitting in the pending queue (the engine pops an id before running and
recording it). -/
def Disciplined : WorkflowExecutionState → List StateOp → Prop
  | _, [] => True
  | s, op :: rest =>
      (match op with
       | StateOp.record r => r.node_id ∉ s.pending_nodes
       | _ => True) ∧ Disciplined (applyOp s op) rest

/-- Every single operation preserves queue nodup-ness. -/
theorem applyOp_nodup (s : WorkflowExecutionState) (op : StateOp)
    (h : s.pending_nodes.Nodup) : (applyOp s op).pending_nodes.Nodup := by
  cases op with
  | enqueue ids => exact add_pending_nodup ids s h
  | pop =>
      show ((s.get_next_node).2).pending_nodes.Nodup
      rw [get_next_node_pending]
      exact h.sublist (List.drop_sublist 1 s.pending_nodes)
  | record r =>
      rw [show (applyOp s (StateOp.record r)).pending_nodes = s.pending_nodes from
        add_node_result_pending s r]
      exact h

/-- A disciplined operation preserves "no queued id is executed". -/
theorem applyOp_noexec (s : WorkflowExecutionState) (op : StateOp)
    (hdisc : match op with
             | StateOp.record r => r.node_id ∉ s.pending_nodes
             | _ => True)
    (h : ∀ i ∈ s.pending_nodes, i ∉ s.executed_nodes) :
    ∀ i ∈ (applyOp s op).pending_nodes, i ∉ (applyOp s op).executed_nodes := by
  cases op with
  | enqueue ids => exact add_pending_noexec ids s h
  | pop =>
      simp only [applyOp]
      intro i hi
      rw [get_next_node_executed]
      exact h i (get_next_node_pending_sub s i hi)
  | record r =>
      simp only [applyOp]
      intro i hi
      rw [add_node_result_pending] at hi
      intro hexec
      rcases add_node_result_executed_sub s r i hexec with hx | hx
      · exact h i hi hx
      · rw [hx] at hi
        exact hdisc hi

/-- Both invariants along any (disciplined, for the second) operation
sequence. -/
theorem applyOps_inv (ops : List StateOp) :
    ∀ (s : WorkflowExecutionState), s.pending_nodes.Nodup →
      (applyOps s ops).pending_nodes.Nodup
      ∧ ((∀ i ∈ s.pending_nodes, i ∉ s.executed_nodes) → Disciplined s ops →
          ∀ i ∈ (applyOps s ops).pending_nodes, i ∉ (applyOps s ops).executed_nodes) := by
  induction ops with
  | nil => intro s h; exact ⟨h, fun hne _ => hne⟩
  | cons op rest ih =>
      intro s h
      have hstep := applyOp_nodup s op h
      obtain ⟨h1, h2⟩ := ih (applyOp s op) hstep
      refine ⟨h1, fun hne hd => ?_⟩
      exact h2 (applyOp_noexec s op hd.1 hne) hd.2

/-- Enqueueing the same not-yet-executed id twice leaves it queued exactly
once. -/
theorem double_enqueue_once (s : WorkflowExecutionState) (x : String)
    (hnodup : s.pending_nodes.Nodup) (hx : x ∉ s.executed_nodes) :
    ((s.add_pending_nodes [x]).add_pending_nodes [x]).pending_nodes.count x = 1 := by
  have h1 : ∀ t : WorkflowExecutionState, t.add_pending_nodes [x] = addPendingOne t x :=
    fun t => rfl
  by_cases hmem : x ∈ s.pending_nodes
  · have hstep : addPendingOne s x = s := by
      unfold addPendingOne
      rw [if_neg]
      simp [hmem]
    rw [h1, h1, hstep, hstep]
    exact List.count_eq_one_of_mem hnodup hmem
  · have hstep : addPendingOne s x =
        { s with pending_nodes := s.pending_nodes ++ [x] } := by
      unfold addPendingOne
      rw [if_pos]
      simp [hmem, hx]
    have hmem2 : x ∈ (s.pending_nodes ++ [x]) := by simp
    have hstep2 : addPendingOne { s with pending_nodes := s.pending_nodes ++ [x] } x =
        { s with pending_nodes := s.pending_nodes ++ [x] } := by
      unfold addPendingOne
      rw [if_neg]
      simp [hmem2]
    rw [h1, h1, hstep, hstep2]
    show (s.pending_nodes ++ [x]).count x = 1
    rw [List.count_append, List.count_eq_zero_of_not_mem hmem]
    simp

/-- C8, amended: from a fresh execution state, for every sequence of
enqueue/pop/record operations the pending queue holds each id at most once
(unconditionally), and — for sequences obeying the engine's pop-before-record
discipline — never holds an id already in the executed set; enqueueing the
same not-yet-executed id twice leaves it queued exactly once. -/
theorem C8_pending_queue_invariants (wid eid : String) (input : PyValue)
    (ops : List StateOp) (x : String) :
    (applyOps (initState wid eid input) ops).pending_nodes.Nodup
    ∧ (Disciplined (initState wid eid input) ops →
        ∀ i ∈ (applyOps (initState wid eid input) ops).pending_nodes,
          i ∉ (applyOps (initState wid eid input) ops).executed_nodes)
    ∧ (x ∉ (applyOps (initState wid eid input) ops).executed_nodes →
        (((applyOps (initState wid eid input) ops).add_pending_nodes
            [x]).add_pending_nodes [x]).pending_nodes.count x = 1) := by
  have hinit : (initState wid eid input).pending_nodes.Nodup := List.nodup_nil
  obtain ⟨h1, h2⟩ := applyOps_inv ops (initState wid eid input) hinit
  refine ⟨h1, fun hd => h2 (fun i hi => (List.not_mem_nil i hi).elim) hd,
    fun hx => double_enqueue_once _ x h1 hx⟩

/-- A result recording node id `"x"` (while `"x"` is still queued — the
sequence below violates the engine's discipline on purpose). -/
def rX : RunResult :=
  { node_id := "x", node_name := "X", status := "error", output := PyValue.none,
    error := Option.none, execution_time := 0, next_nodes := [] }

/-- C8, counterexample: the claim quantifies over *every* sequence of
enqueue/pop/record operations.  The sequence enqueue `["x"]` then record a
result for `"x"` (no pop in between) leaves `"x"` both in the pending queue
and in the executed set — `add_pending_nodes` checks only at enqueue time, so
the no-executed-id-queued invariant fails for undisciplined sequences. -/
theorem C8_undisciplined_counterexample :
    (applyOps (initState "w" "e" (PyValue.dict []))
      [StateOp.enqueue ["x"], StateOp.record rX]).pending_nodes = ["x"]
    ∧ (applyOps (initState "w" "e" (PyValue.dict []))
      [StateOp.enqueue ["x"], StateOp.record rX]).executed_nodes = ["x"] := by
  constructor
  · with_unfolding_all rfl
  · with_unfolding_all rfl

/-- A result for node `"a"` recorded after `"a"` was popped. -/
def rA : RunResult :=
  { node_id := "a", node_name := "A", status := "success", output := PyValue.none,
    error := Option.none, execution_time := 0, next_nodes := [] }

/-- A disciplined operation sequence: enqueue `a`, `b`; pop `a`; record `a`. -/
def opsW : List StateOp := [StateOp.enqueue ["a", "b"], StateOp.pop, StateOp.record rA]

/-- Witness for C8 at the disciplined sequence `opsW` and fresh id `"c"`,
with the discipline and non-executedness hypotheses discharged concretely. -/
theorem C8_pending_queue_witness :
    ((applyOps (initState "w" "e" (PyValue.dict [])) opsW).pending_nodes.Nodup
    ∧ (Disciplined (initState "w" "e" (PyValue.dict [])) opsW →
        ∀ i ∈ (applyOps (initState "w" "e" (PyValue.dict [])) opsW).pending_nodes,
          i ∉ (applyOps (initState "w" "e" (PyValue.dict [])) opsW).executed_nodes)
    ∧ ("c" ∉ (applyOps (initState "w" "e" (PyValue.dict [])) opsW).executed_nodes →
        (((applyOps (initState "w" "e" (PyValue.dict [])) opsW).add_pending_nodes
            ["c"]).add_pending_nodes ["c"]).pending_nodes.count "c" = 1))
    ∧ Disciplined (initState "w" "e" (PyValue.dict [])) opsW
    ∧ "c" ∉ (applyOps (initState "w" "e" (PyValue.dict [])) opsW).executed_nodes := by
  refine ⟨C8_pending_queue_invariants "w" "e" (PyValue.dict []) opsW "c",
    ⟨trivial, trivial, ?_, trivial⟩, ?_⟩
  · show rA.node_id ∉ (applyOp (applyOp (initState "w" "e" (PyValue.dict []))
      (StateOp.enqueue ["a", "b"])) StateOp.pop).pending_nodes
    with_unfolding_all decide
  · with_unfolding_all decide

/-! ## C7: correctness of `validate_workflow` against the three structural
invariants -/

/-- Spec invariant 1: the start node id is in the node-id set. -/
def StartOk (wf : WorkflowResponse) : Prop := wf.start_node ∈ workflowIds wf

/-- Spec invariant 2: every `next_nodes` entry and every configured
(truthy — `None` and `""` are both "no handler" throughout the engine)
`on_error` reference resolves to a node id of the definition. -/
def RefsOk (wf : WorkflowResponse) : Prop :=
  ∀ n ∈ wf.nodes,
    (∀ r ∈ n.next_nodes, r ∈ workflowIds wf)
    ∧ (∀ e, n.on_error = some e → e ≠ "" → e ∈ workflowIds wf)

/-- Spec invariant 3: node ids are pairwise distinct. -/
def UniqueOk (wf : WorkflowResponse) : Prop := (workflowIds wf).Nodup

/-- The returned message names an invariant the definition actually
violates. -/
def NamesViolation (wf : WorkflowResponse) (m : String) : Prop :=
  (¬ StartOk wf ∧ m = startMissingMsg wf)
  ∨ (∃ n ∈ wf.nodes, ∃ r ∈ n.next_nodes, r ∉ workflowIds wf ∧ m = danglingNextMsg n.id r)
  ∨ (∃ n ∈ wf.nodes, ∃ e, n.on_error = some e ∧ e ≠ "" ∧ e ∉ workflowIds wf
      ∧ m = danglingErrMsg n.id e)
  ∨ (¬ UniqueOk wf ∧ m = duplicateMsg)

/-- `refError` is silent exactly when the node's references all resolve. -/
theorem refError_none_iff (ids : List String) (n : NodeSchema) :
    refError ids n = Option.none ↔
      ((∀ r ∈ n.next_nodes, r ∈ ids) ∧ (∀ e, n.on_error = some e → e ≠ "" → e ∈ ids)) := by
  unfold refError
  cases hf : n.next_nodes.find? (fun r => !ids.contains r) with
  | some r =>
      dsimp only
      have hr := List.find?_some (p := fun r => !ids.contains r) hf
      have hmem : r ∈ n.next_nodes := List.mem_of_find?_eq_some hf
      have hnot : r ∉ ids := by simpa using hr
      constructor
      · intro h
        exact absurd h (by simp)
      · intro ⟨h1, _⟩
        exact absurd (h1 r hmem) hnot
  | none =>
      have hall : ∀ r ∈ n.next_nodes, r ∈ ids := by
        intro r hrm
        have := List.find?_eq_none.mp hf r hrm
        simpa using this
      dsimp only
      cases ho : n.on_error with
      | none =>
          dsimp only
          constructor
          · intro _
            exact ⟨hall, fun e he => by cases he⟩
          · intro _
            rfl
      | some e =>
          dsimp only
          by_cases hc : (e != "" && !ids.contains e) = true
          · rw [if_pos hc]
            simp only [Bool.and_eq_true, bne_iff_ne, ne_eq, Bool.not_eq_true'] at hc
            have hce : e ∉ ids := by simpa using hc.2
            constructor
            · intro h
              exact absurd h (by simp)
            · intro ⟨_, h2⟩
              exact absurd (h2 e rfl hc.1) hce
          · rw [if_neg hc]
            simp only [Bool.and_eq_true, bne_iff_ne, ne_eq, Bool.not_eq_true',
              not_and] at hc
            constructor
            · intro _
              refine ⟨hall, fun e' he' hne => ?_⟩
              injection he' with heq
              subst heq
              have hcontains : ids.contains e = true := by
                rcases Bool.eq_false_or_eq_true (ids.contains e) with h | h
                · exact h
                · exact absurd h (hc hne)
              simpa using hcontains
            · intro _
              rfl

/-- A message `refError` produces pins down a violated reference. -/
theorem refError_some (ids : List String) (n : NodeSchema) (m : String)
    (h : refError ids n = some m) :
    (∃ r ∈ n.next_nodes, r ∉ ids ∧ m = danglingNextMsg n.id r)
    ∨ (∃ e, n.on_error = some e ∧ e ≠ "" ∧ e ∉ ids ∧ m = danglingErrMsg n.id e) := by
  unfold refError at h
  cases hf : n.next_nodes.find? (fun r => !ids.contains r) with
  | some r =>
      rw [hf] at h
      dsimp only at h
      have hr := List.find?_some (p := fun r => !ids.contains r) hf
      have hmem : r ∈ n.next_nodes := List.mem_of_find?_eq_some hf
      have hnot : r ∉ ids := by simpa using hr
      injection h with h
      exact Or.inl ⟨r, hmem, hnot, h.symm⟩
  | none =>
      rw [hf] at h
      dsimp only at h
      cases ho : n.on_error with
      | none => rw [ho] at h; cases h
      | some e =>
          rw [ho] at h
          dsimp only at h
          by_cases hc : (e != "" && !ids.contains e) = true
          · rw [if_pos hc] at h
            injection h with h
            simp only [Bool.and_eq_true, bne_iff_ne, ne_eq, Bool.not_eq_true'] at hc
            have hce : e ∉ ids := by simpa using hc.2
            exact Or.inr ⟨e, rfl, hc.1, hce, h.symm⟩
          · rw [if_neg hc] at h
            cases h

/-- `len(set(ids)) = len(ids)` iff the ids are pairwise distinct. -/
theorem dedup_length_iff (l : List String) :
    l.dedup.length = l.length ↔ l.Nodup := by
  constructor
  · intro h
    have hsub : l.dedup.Sublist l := List.dedup_sublist l
    have heq := hsub.eq_of_length h
    rw [← heq]
    exact l.nodup_dedup
  · intro h
    rw [List.dedup_eq_self.mpr h]

/-- C7: `validate_workflow` answers ok exactly when the start node resolves,
every `next_nodes`/`on_error` reference resolves, and node ids are pairwise
distinct; and every not-ok answer carries a message naming an invariant the
definition actually violates. -/
theorem C7_validate_workflow_correct (wf : WorkflowResponse) :
    ((validate_workflow wf).1 = true ↔ StartOk wf ∧ RefsOk wf ∧ UniqueOk wf)
    ∧ ((validate_workflow wf).1 = false →
        ∃ m, (validate_workflow wf).2 = some m ∧ NamesViolation wf m) := by
  unfold validate_workflow
  by_cases hstart : (workflowIds wf).contains wf.start_node
  · have hcond : ¬ ((!(workflowIds wf).contains wf.start_node) = true) := by
      rw [hstart]
      simp
    rw [if_neg hcond]
    cases hfs : wf.nodes.findSome? (refError (workflowIds wf)) with
    | some m =>
        dsimp only
        obtain ⟨n, hn, hre⟩ := List.exists_of_findSome?_eq_some hfs
        have hviol := refError_some (workflowIds wf) n m hre
        have hnrefs : ¬ RefsOk wf := by
          intro hrefs
          rcases hviol with ⟨r, hrm, hrn, _⟩ | ⟨e, he, hne, hen, _⟩
          · exact hrn ((hrefs n hn).1 r hrm)
          · exact hen ((hrefs n hn).2 e he hne)
        constructor
        · exact iff_of_false (by simp) (fun ⟨_, hrefs, _⟩ => hnrefs hrefs)
        · intro _
          refine ⟨m, rfl, ?_⟩
          rcases hviol with ⟨r, hrm, hrn, hm⟩ | ⟨e, he, hne, hen, hm⟩
          · exact Or.inr (Or.inl ⟨n, hn, r, hrm, hrn, hm⟩)
          · exact Or.inr (Or.inr (Or.inl ⟨n, hn, e, he, hne, hen, hm⟩))
    | none =>
        dsimp only
        have hrefs : RefsOk wf := by
          intro n hn
          have hnone : refError (workflowIds wf) n = Option.none :=
            List.findSome?_eq_none_iff.mp hfs n hn
          exact (refError_none_iff (workflowIds wf) n).mp hnone
        have hlen : (workflowIds wf).length = wf.nodes.length := by
          unfold workflowIds
          exact List.length_map wf.nodes _
        by_cases hdup : ((workflowIds wf).dedup.length != wf.nodes.length) = true
        · rw [if_pos hdup]
          have hnodup : ¬ UniqueOk wf := by
            intro hu
            have hd := (dedup_length_iff (workflowIds wf)).mpr hu
            have : (workflowIds wf).dedup.length = wf.nodes.length := hd.trans hlen
            exact absurd this (by simpa using hdup)
          constructor
          · exact iff_of_false (by simp) (fun ⟨_, _, hu⟩ => hnodup hu)
          · intro _
            exact ⟨duplicateMsg, rfl, Or.inr (Or.inr (Or.inr ⟨hnodup, rfl⟩))⟩
        · rw [if_neg hdup]
          have hu : UniqueOk wf := by
            have hne : (workflowIds wf).dedup.length = wf.nodes.length := by
              have := hdup
              simp only [bne_iff_ne, ne_eq, not_not] at this
              exact this
            exact (dedup_length_iff (workflowIds wf)).mp (hne.trans hlen.symm)
          have hs : StartOk wf := by simpa using hstart
          constructor
          · exact iff_of_true rfl ⟨hs, hrefs, hu⟩
          · intro hfalse
            exact absurd hfalse (by simp)
  · have hcond : ((!(workflowIds wf).contains wf.start_node) = true) := by
      simp only [Bool.not_eq_true']
      exact Bool.not_eq_true _ ▸ (by simpa using hstart)
    rw [if_pos hcond]
    have hns : ¬ StartOk wf := by
      intro hs
      exact hstart (by simpa using hs)
    constructor
    · exact iff_of_false (by simp) (fun ⟨hs, _, _⟩ => hns hs)
    · intro _
      exact ⟨startMissingMsg wf, rfl, Or.inl ⟨hns, rfl⟩⟩

/-- Witness for C7: the valid one-node workflow `wfC1` validates ok, and the
dangling-start workflow `wfC5` yields a message naming its violation. -/
theorem C7_validate_workflow_witness :
    (validate_workflow wfC1).1 = true
    ∧ (∃ m, (validate_workflow wfC5).2 = some m ∧ NamesViolation wfC5 m) := by
  constructor
  · refine (C7_validate_workflow_correct wfC1).1.mpr ⟨?_, ?_, ?_⟩
    · show wfC1.start_node ∈ workflowIds wfC1
      decide
    · intro n hn
      rcases List.mem_singleton.mp hn with rfl
      refine ⟨?_, ?_⟩
      · intro r hr
        cases hr
      · intro e he
        cases he
    · show (workflowIds wfC1).Nodup
      decide
  · exact (C7_validate_workflow_correct wfC5).2 (by with_unfolding_all rfl)
